import Mathlib

/-!
Verification of the `fl::Module` core from
`src/flashlight/nn/modules/Module.h` (flashlight neural-network library).

The header declares the data model (an ordered parameter list `params_` of
`Variable` tensors and a boolean training-mode flag `train_`, defaulting to
`true`) together with the documented operations `params`, `train`, `eval`,
`param`, `setParams`, `zeroGrad`, `forward` (pure virtual), `operator()` and
the serialization hook `FL_SAVE_LOAD(params_, train_)`.  The member bodies
live in a translation unit that is not part of the available sources, so the
operations are modelled from the specification, as recorded in each doc
comment below.
-/

namespace Flashlight

/-- Modelled from the spec: the differentiable tensor type `fl::Variable`
(declared in `flashlight/autograd/Variable.h`, outside the available
sources).  The module core needs only three capabilities of it: a numeric
value, a boolean gradient-tracking flag that can be read and set, and an
accumulated gradient buffer that can be cleared (modelled as an `Option`
that is `none` when the buffer is cleared/detached). -/
structure Variable where
  value : Int
  calcGrad : Bool
  grad : Option Int
deriving Repr, DecidableEq

instance : Inhabited Variable := ⟨⟨0, true, none⟩⟩

/-- The state of `fl::Module` (Module.h lines 31-50): the ordered parameter
list `params_` and the training-mode flag `train_`, whose in-class
initializer is `true`. -/
structure Module where
  params_ : List Variable
  train_ : Bool := true
deriving Repr, DecidableEq

/-- Modelled from the spec: `Module::Module()` (declared Module.h line 55,
body not in the available sources) — creates a module with no parameters;
`train_` keeps its in-class default `true`. -/
def Module.emptyModule : Module := { params_ := [] }

/-- Modelled from the spec: `Module::Module(const std::vector<Variable>&)`
(declared Module.h line 62, body not in the available sources) — `params_`
is initialized to exactly the supplied ordered sequence, with no validation;
`train_` keeps its default `true`. -/
def Module.ofParams (params : List Variable) : Module := { params_ := params }

/-- Modelled from the spec: `Module::params()` (declared Module.h line 70,
body not in the available sources) — returns a copy of the current parameter
list; side-effect free. -/
def Module.params (m : Module) : List Variable := m.params_

/-- Modelled from the spec: `Module::train()` (declared Module.h line 76,
body not in the available sources) — sets `train_ = true` and enables the
gradient-tracking flag on every parameter tensor. -/
def Module.train (m : Module) : Module :=
  { params_ := m.params_.map (fun v => { v with calcGrad := true }),
    train_ := true }

/-- Modelled from the spec: `Module::eval()` (declared Module.h line 82,
body not in the available sources) — sets `train_ = false` and disables the
gradient-tracking flag on every parameter tensor. -/
def Module.eval (m : Module) : Module :=
  { params_ := m.params_.map (fun v => { v with calcGrad := false }),
    train_ := false }

/-- The error raised on out-of-range parameter access. -/
def outOfRangeMsg : String := "Module param index out of range"

/-- Modelled from the spec: `Module::param(int position)` (declared Module.h
line 90, body not in the available sources) — returns the parameter at the
given zero-based position; fails with an out-of-range error iff `position`
is negative or at least the current parameter count. -/
def Module.param (m : Module) (position : Int) : Except String Variable :=
  if 0 ≤ position ∧ position < (m.params_.length : Int) then
    .ok (m.params_.getD position.toNat default)
  else
    .error outOfRangeMsg

/-- Modelled from the spec: `Module::setParams(var, position)` (declared
Module.h lines 92-103, body not in the available sources) — replaces the
parameter at `position` with `var`; fails with an out-of-range error under
the same bounds as `param`; the bounds check precedes any mutation, so on
failure no new parameter is created. -/
def Module.setParams (m : Module) (var : Variable) (position : Int) :
    Except String Module :=
  if 0 ≤ position ∧ position < (m.params_.length : Int) then
    .ok { m with params_ := m.params_.set position.toNat var }
  else
    .error outOfRangeMsg

/-- C++ exception semantics of a `setParams` call on a module object: when
the call throws, the object is left in its prior state; when it returns
normally, the updated state replaces it. -/
def Module.setParamsExec (m : Module) (var : Variable) (position : Int) :
    Module :=
  match m.setParams var position with
  | .ok m2 => m2
  | .error _ => m

/-- Modelled from the spec: `Module::zeroGrad()` (declared Module.h line
108, body not in the available sources) — clears/detaches the accumulated
gradient buffer of every parameter tensor, leaving values and
gradient-tracking flags untouched and the list itself intact. -/
def Module.zeroGrad (m : Module) : Module :=
  { m with params_ := m.params_.map (fun v => { v with grad := none }) }

/-- The abstract `Module::forward` hook (Module.h line 118, pure virtual):
a concrete subclass implementation mapping the module state and an input
tensor to an output tensor.  Modelled from the spec: forward reads
`parameters` and `input` and produces a new output tensor. -/
def ForwardImpl : Type := Module → Variable → Variable

/-- A call to the forward hook on a module: the produced output tensor
paired with the module state after the call.  Modelled from the spec:
forward reads the parameters and does not mutate the module-level state. -/
def Module.forwardCall (fwd : ForwardImpl) (m : Module) (input : Variable) :
    Variable × Module :=
  (fwd m input, m)

/-- Modelled from the spec: `Module::operator()(input)` (declared Module.h
line 128, body not in the available sources) — a convenience alias that
simply invokes `forward` on the input, with no additional semantics. -/
def Module.applyCall (fwd : ForwardImpl) (m : Module) (input : Variable) :
    Variable × Module :=
  Module.forwardCall fwd m input

/-- Modelled from the spec: the save half of `FL_SAVE_LOAD(params_, train_)`
(Module.h line 36; the macro itself lives in
`flashlight/common/Serialization.h`, outside the available sources) — the
persisted state is exactly the pair of `params_` and `train_`, parameters
first. -/
def Module.save (m : Module) : List Variable × Bool := (m.params_, m.train_)

/-- Modelled from the spec: the load half of `FL_SAVE_LOAD(params_, train_)`
— reconstructs a module whose `params_` and `train_` are the two persisted
fields, in that order. -/
def Module.load (s : List Variable × Bool) : Module :=
  { params_ := s.1, train_ := s.2 }

/-- A concrete subclass of `Module` in the shallow embedding: the inherited
base state together with one implementation slot for each member that
Module.h declares `virtual` (`train`, `eval`, `setParams`, `forward`,
`prettyString`).  The members `params`, `param` and `zeroGrad` are declared
without `virtual`, so a subclass has no slot for them. -/
structure ConcreteModule where
  state : Module
  trainImpl : Module → Module
  evalImpl : Module → Module
  setParamsImpl : Module → Variable → Int → Except String Module
  forwardImpl : Module → Variable → Variable
  prettyStringImpl : Module → String

/-- Non-virtual dispatch of `params()` on a subclass instance: always the
base `Module::params` on the inherited state. -/
def ConcreteModule.paramsDispatch (c : ConcreteModule) : List Variable :=
  Module.params c.state

/-- Non-virtual dispatch of `param(position)` on a subclass instance:
always the base `Module::param` on the inherited state. -/
def ConcreteModule.paramDispatch (c : ConcreteModule) (position : Int) :
    Except String Variable :=
  Module.param c.state position

/-- Non-virtual dispatch of `zeroGrad()` on a subclass instance: always the
base `Module::zeroGrad` on the inherited state. -/
def ConcreteModule.zeroGradDispatch (c : ConcreteModule) : ConcreteModule :=
  { c with state := Module.zeroGrad c.state }

/-- Virtual dispatch of `train()` on a subclass instance: runs the
implementation slot supplied by the subclass. -/
def ConcreteModule.trainDispatch (c : ConcreteModule) : ConcreteModule :=
  { c with state := c.trainImpl c.state }

/-! ### Helper lemmas and concrete tensors for witnesses -/

/-- A sample tensor. -/
def vA : Variable := ⟨1, true, some 10⟩

/-- A sample tensor. -/
def vB : Variable := ⟨2, false, none⟩

/-- A sample tensor. -/
def vC : Variable := ⟨3, true, some 30⟩

/-- A sample tensor. -/
def vD : Variable := ⟨4, false, some 40⟩

theorem calcGrad_map_const (l : List Variable) (b : Bool) :
    ∀ v ∈ l.map (fun v => { v with calcGrad := b }), v.calcGrad = b := by
  intro v hv
  obtain ⟨a, -, rfl⟩ := List.mem_map.mp hv
  rfl

theorem map_calcGrad_idem (b : Bool) (l : List Variable) :
    ((l.map (fun v => { v with calcGrad := b })).map
        (fun v => { v with calcGrad := b }))
      = l.map (fun v => { v with calcGrad := b }) := by
  induction l with
  | nil => rfl
  | cons a l ih => simp [ih]

/-! ### Claims -/

/-- C1: after `train()`, `train_` is true and every parameter tensor has its
gradient-tracking flag enabled; after `eval()`, `train_` is false and every
parameter tensor has the flag disabled; after either mode switch, every
parameter tensor's flag equals `train_`. -/
theorem C1_mode_switch_propagates (m : Module) :
    (m.train).train_ = true ∧
    (∀ v ∈ (m.train).params_, v.calcGrad = true) ∧
    (∀ v ∈ (m.train).params_, v.calcGrad = (m.train).train_) ∧
    (m.eval).train_ = false ∧
    (∀ v ∈ (m.eval).params_, v.calcGrad = false) ∧
    (∀ v ∈ (m.eval).params_, v.calcGrad = (m.eval).train_) :=
  ⟨rfl, calcGrad_map_const m.params_ true, calcGrad_map_const m.params_ true,
   rfl, calcGrad_map_const m.params_ false, calcGrad_map_const m.params_ false⟩

/-- C3: the persisted state is exactly the pair of `params_` and `train_`,
parameters first, and loading a saved module restores the module state
exactly (round-trip identity). -/
theorem C3_save_load_roundtrip (m : Module) :
    Module.load (Module.save m) = m ∧
    Module.save m = (m.params_, m.train_) := by
  constructor
  · cases m
    rfl
  · rfl

/-- C4: a module constructed with parameter sequence `p` has `params() = p`
in order, the module constructed with no parameters has an empty parameter
list, any sequence including the empty one is accepted, and a freshly
constructed module is in training mode. -/
theorem C4_construction (p : List Variable) :
    (Module.ofParams p).params = p ∧
    (Module.ofParams p).train_ = true ∧
    Module.emptyModule.params = [] ∧
    Module.emptyModule.train_ = true :=
  ⟨rfl, rfl, rfl, rfl⟩

/-- C6: `zeroGrad()` clears the gradient buffer of every parameter while
leaving the parameter count, every parameter's value, every parameter's
gradient-tracking flag, and `train_` unchanged. -/
theorem C6_zeroGrad_frame (m : Module) :
    (∀ v ∈ (m.zeroGrad).params_, v.grad = none) ∧
    (m.zeroGrad).params_.length = m.params_.length ∧
    (∀ k : Nat,
      ((m.zeroGrad).params_[k]?).map Variable.value
        = (m.params_[k]?).map Variable.value) ∧
    (∀ k : Nat,
      ((m.zeroGrad).params_[k]?).map Variable.calcGrad
        = (m.params_[k]?).map Variable.calcGrad) ∧
    (m.zeroGrad).train_ = m.train_ := by
  refine ⟨?_, ?_, ?_, ?_, rfl⟩
  · intro v hv
    obtain ⟨a, -, rfl⟩ := List.mem_map.mp hv
    rfl
  · simp [Module.zeroGrad]
  · intro k
    cases hk : m.params_[k]? <;> simp [Module.zeroGrad, hk]
  · intro k
    cases hk : m.params_[k]? <;> simp [Module.zeroGrad, hk]

/-- C7: `train()` and `eval()` are idempotent, and the sequence
`train(); eval(); train()` leaves `train_` true with every parameter
tensor's gradient-tracking flag true; both transitions are total functions
of the state. -/
theorem C7_mode_idempotent_roundtrip (m : Module) :
    m.train.train = m.train ∧
    m.eval.eval = m.eval ∧
    (m.train.eval.train).train_ = true ∧
    (∀ v ∈ (m.train.eval.train).params_, v.calcGrad = true) := by
  refine ⟨?_, ?_, rfl, calcGrad_map_const _ true⟩
  · simp only [Module.train]
    rw [map_calcGrad_idem]
  · simp only [Module.eval]
    rw [map_calcGrad_idem]

/-- C8: no public operation changes the parameter count: `train`, `eval`,
`zeroGrad`, `setParams` (whether it succeeds or fails) and the
call-as-function forward all leave the length of `params_` unchanged. -/
theorem C8_param_count_invariant (m : Module) (x : Variable) (i : Int)
    (fwd : ForwardImpl) (input : Variable) :
    (m.train).params_.length = m.params_.length ∧
    (m.eval).params_.length = m.params_.length ∧
    (m.zeroGrad).params_.length = m.params_.length ∧
    (m.setParamsExec x i).params_.length = m.params_.length ∧
    ((Module.applyCall fwd m input).2).params_.length = m.params_.length := by
  refine ⟨by simp [Module.train], by simp [Module.eval],
    by simp [Module.zeroGrad], ?_, rfl⟩
  unfold Module.setParamsExec Module.setParams
  by_cases h : 0 ≤ i ∧ i < (m.params_.length : Int)
  · simp [h]
  · simp [h]

/-- C9: invoking a module as a callable returns exactly the result of the
forward hook on the same input and has no module-state effects beyond those
of forward itself. -/
theorem C9_call_is_forward_alias (fwd : ForwardImpl) (m : Module)
    (input : Variable) :
    Module.applyCall fwd m input = Module.forwardCall fwd m input ∧
    (Module.applyCall fwd m input).1 = fwd m input ∧
    (Module.applyCall fwd m input).2 = m :=
  ⟨rfl, rfl, rfl⟩

/-- C2: `param(i)` and `setParams(x, i)` fail with an out-of-range error iff
`i` is negative or at least the current parameter count, and a failing
`setParams` leaves the module — parameter list and `train_` — completely
unchanged (no partial mutation, no new parameter). -/
theorem C2_param_setParams_bounds (m : Module) (x : Variable) (i : Int) :
    ((∃ e, m.param i = .error e) ↔ i < 0 ∨ (m.params_.length : Int) ≤ i) ∧
    ((∃ e, m.setParams x i = .error e) ↔
      i < 0 ∨ (m.params_.length : Int) ≤ i) ∧
    ((i < 0 ∨ (m.params_.length : Int) ≤ i) → m.setParamsExec x i = m) := by
  by_cases h : 0 ≤ i ∧ i < (m.params_.length : Int)
  · refine ⟨?_, ?_, fun hc => absurd hc (by omega)⟩ <;>
      simp [Module.param, Module.setParams, h]
  · refine ⟨?_, ?_, ?_⟩ <;>
      simp [Module.param, Module.setParams, Module.setParamsExec, h] <;>
      omega

/-- Witness for C2: index 5 on a one-parameter module is out of range and a
failing `setParams` leaves the module unchanged. -/
theorem C2_witness :
    ((5 : Int) < 0 ∨ ((Module.ofParams [vA]).params_.length : Int) ≤ 5) ∧
    (Module.ofParams [vA]).setParamsExec vB 5 = Module.ofParams [vA] :=
  ⟨by decide,
   (C2_param_setParams_bounds (Module.ofParams [vA]) vB 5).2.2 (by decide)⟩

/-- C5: a successful `setParams(x, i)` makes `param(i)` return `x`, leaves
every position other than `i` unchanged, preserves the parameter count,
leaves `train_` unchanged, and installs `x` exactly as given — in
particular no gradient-tracking flag is reconciled with the mode. -/
theorem C5_setParams_success_frame (m m2 : Module) (x : Variable) (i : Int)
    (h : m.setParams x i = .ok m2) :
    m2.param i = .ok x ∧
    (∀ j : Int, j ≠ i → m2.param j = m.param j) ∧
    m2.params_.length = m.params_.length ∧
    m2.train_ = m.train_ := by
  unfold Module.setParams at h
  by_cases hb : 0 ≤ i ∧ i < (m.params_.length : Int)
  · rw [if_pos hb] at h
    injection h with h
    subst h
    refine ⟨?_, ?_, by simp, rfl⟩
    · unfold Module.param
      rw [if_pos (by simpa using hb)]
      simp only [List.getD_eq_getElem?_getD]
      rw [List.getElem?_set_self (by omega)]
      rfl
    · intro j hj
      unfold Module.param
      by_cases hjb : 0 ≤ j ∧ j < (m.params_.length : Int)
      · rw [if_pos (by simpa using hjb), if_pos hjb]
        simp only [List.getD_eq_getElem?_getD]
        rw [List.getElem?_set_ne (by omega)]
      · rw [if_neg (by simpa using hjb), if_neg hjb]
  · rw [if_neg hb] at h
    simp at h

/-- Witness for C5: replacing position 1 of a three-parameter module and
reading it back. -/
theorem C5_witness :
    (Module.ofParams [vA, vB, vC]).setParams vD 1 =
      .ok { params_ := [vA, vD, vC], train_ := true } ∧
    ({ params_ := [vA, vD, vC], train_ := true } : Module).param 1 =
      .ok vD :=
  ⟨rfl,
   (C5_setParams_success_frame (Module.ofParams [vA, vB, vC])
      { params_ := [vA, vD, vC], train_ := true } vD 1 rfl).1⟩

/-- C10: `params()`, `param(position)` and `zeroGrad()` are not virtual, so
on a subclass instance they depend only on the inherited base state and
never on the subclass's implementation slots; by contrast `train()` is a
dynamically dispatched extension point: two subclasses with identical state
can behave differently under it. -/
theorem C10_nonvirtual_members (c1 c2 : ConcreteModule)
    (h : c1.state = c2.state) :
    (c1.paramsDispatch = c2.paramsDispatch ∧
      (∀ i : Int, c1.paramDispatch i = c2.paramDispatch i) ∧
      (c1.zeroGradDispatch).state = (c2.zeroGradDispatch).state) ∧
    (∃ d1 d2 : ConcreteModule, d1.state = d2.state ∧
      (d1.trainDispatch).state ≠ (d2.trainDispatch).state) := by
  constructor
  · exact ⟨by simp [ConcreteModule.paramsDispatch, h],
      fun i => by simp [ConcreteModule.paramDispatch, h],
      by simp [ConcreteModule.zeroGradDispatch, h]⟩
  · refine ⟨⟨Module.emptyModule, Module.train, Module.eval, Module.setParams,
        fun _ v => v, fun _ => "A"⟩,
      ⟨Module.emptyModule, Module.eval, Module.eval, Module.setParams,
        fun _ v => v, fun _ => "A"⟩, rfl, ?_⟩
    decide

/-- A concrete subclass instance for the C10 witness. -/
def subA : ConcreteModule :=
  { state := Module.ofParams [vA, vB],
    trainImpl := Module.train,
    evalImpl := Module.eval,
    setParamsImpl := Module.setParams,
    forwardImpl := fun _ v => v,
    prettyStringImpl := fun _ => "subA" }

/-- Another subclass instance sharing the state of the first but overriding
the virtual implementation slots differently. -/
def subB : ConcreteModule :=
  { subA with
    trainImpl := fun m => m,
    forwardImpl := fun m _ => m.params_.getD 0 default,
    prettyStringImpl := fun _ => "subB" }

/-- Witness for C10: the two sample subclass instances share a state and the
non-virtual `params()` agrees on them. -/
theorem C10_witness :
    subA.state = subB.state ∧ subA.paramsDispatch = subB.paramsDispatch :=
  ⟨rfl, ((C10_nonvirtual_members subA subB rfl).1).1⟩

end Flashlight
